import Mathlib

/-!
Verification of the lp50xx LED driver library against its specification.

The development is a shallow embedding of src/lib.rs:
machine integers (u8) are modelled as Nat with an explicit % 256 at the
points where the Rust arithmetic could overflow; the f32 brightness
factor is modelled as a rational number, and the Rust float-to-u8 cast
(which truncates toward zero and saturates) is modelled by f32_as_u8;
a Rust panic is modelled either by an Option result (Address.into_u8)
or by the dedicated WriteResult.panic constructor; the external I2C bus
and the enable pin, which the library only uses through trait methods,
are modelled at their interface boundary by caller-supplied transition
functions (a bus write either fails or returns the updated bus state; a
pin transition returns the updated pin state and a success flag).
A WriteResult also carries the list of register frames (address, data)
handed to the transport, so that theorems can speak about what is
emitted on the wire.
-/

namespace Lp50xx

/-- Error enum of the library (lib.rs lines 11-19). -/
inductive Error
  | CommError
  | NoInterfaceDefined
  | EnableLine
  deriving DecidableEq

/-- Supported models (lib.rs lines 22-28). -/
inductive Model
  | LP5009
  | LP5012
  deriving DecidableEq

/-- Pin count per model (lib.rs lines 31-37). -/
def Model.get_pin_count : Model → Nat
  | Model.LP5009 => 9
  | Model.LP5012 => 12

/-- The chip select communication address (lib.rs lines 42-49). -/
inductive Address
  | Broadcast
  | Independent (address : Nat)
  deriving DecidableEq

/-- Address.into_u8 (lib.rs lines 55-65). The source panics when an
Independent selector is greater than 3; the panic is modelled by
returning none. -/
def Address.into_u8 : Address → Option Nat
  | Address.Independent address =>
    if address > 3 then
      none
    else
      some (0b00010100 ||| address)
  | Address.Broadcast => some 0b0001100

/-- Phantom mode marker (lib.rs line 69). -/
structure DefaultMode

/-- Phantom mode marker (lib.rs line 72). -/
structure ColorMode

def ColorMode.new : ColorMode := {}

/-- Phantom mode marker (lib.rs line 80). -/
structure MonochromaticMode

def MonochromaticMode.new : MonochromaticMode := {}

/-- Driver state (lib.rs lines 89-109). MODE is the phantom type
parameter; I2C and EN are the external bus and pin types. The f32
brightness_factor field is modelled as a rational number. -/
structure LP50xx (MODE I2C EN : Type) where
  interface : Option I2C
  enable : EN
  transfer_callback : Option (Address → List Nat → Unit)
  continuous_addressing : Bool
  active_address : Address
  model : Model
  brightness_factor : ℚ

/-- A register frame handed to the transport: target chip address and
payload bytes. -/
abbrev Frame := Address × List Nat

/-- Result of a driver call: a Rust panic, an Error together with the
resulting driver state and the frames emitted before the failure, or
success with the resulting state and the emitted frames. -/
inductive WriteResult (σ : Type)
  | panic : WriteResult σ
  | err : Error → σ → List Frame → WriteResult σ
  | ok : σ → List Frame → WriteResult σ

/-- Rust cast from f32 to u8 (truncate toward zero, saturate at the
ends of the u8 range), on the rational model of f32. For a negative
argument Int.toNat yields 0, matching the saturating cast. -/
def f32_as_u8 (x : ℚ) : Nat :=
  min 255 (Int.toNat (Int.floor x))

/-- LP50xx::init_with_i2c (lib.rs lines 119-132). The constructor first
drives the enable line low, discarding a possible pin error (.ok() in
the source), then builds the state. -/
def LP50xx.init_with_i2c {I2C EN : Type} (en_set_low : EN → EN × Bool)
    (model : Model) (i2c : I2C) (en : EN) : LP50xx DefaultMode I2C EN :=
  let en2 := (en_set_low en).1
  { interface := some i2c
    enable := en2
    transfer_callback := none
    model := model
    active_address := Address.Broadcast
    continuous_addressing := true
    brightness_factor := 1 }

/-- LP50xx::init_with_callback (lib.rs lines 138-155). -/
def LP50xx.init_with_callback {I2C EN : Type} (en_set_low : EN → EN × Bool)
    (model : Model) (en : EN) (callback : Address → List Nat → Unit) :
    LP50xx DefaultMode I2C EN :=
  let en2 := (en_set_low en).1
  { interface := none
    enable := en2
    transfer_callback := some callback
    model := model
    active_address := Address.Broadcast
    continuous_addressing := true
    brightness_factor := 1 }

/-- LP50xx::set_continuous_addressing (lib.rs lines 159-161). -/
def LP50xx.set_continuous_addressing {I2C EN : Type}
    (self : LP50xx DefaultMode I2C EN) (state : Bool) :
    LP50xx DefaultMode I2C EN :=
  { self with continuous_addressing := state }

/-- LP50xx::set_active_address (lib.rs lines 165-167). -/
def LP50xx.set_active_address {I2C EN : Type}
    (self : LP50xx DefaultMode I2C EN) (address : Address) :
    LP50xx DefaultMode I2C EN :=
  { self with active_address := address }

/-- LP50xx::into_mode (lib.rs lines 191-202): copies every field and
resets the brightness factor to 1.0. -/
def LP50xx.into_mode {MODE MODE2 I2C EN : Type} (self : LP50xx MODE I2C EN) :
    LP50xx MODE2 I2C EN :=
  { interface := self.interface
    enable := self.enable
    transfer_callback := self.transfer_callback
    active_address := self.active_address
    model := self.model
    continuous_addressing := self.continuous_addressing
    brightness_factor := 1 }

/-- LP50xx::into_color_mode (lib.rs lines 181-183). -/
def LP50xx.into_color_mode {MODE I2C EN : Type} (self : LP50xx MODE I2C EN) :
    LP50xx ColorMode I2C EN :=
  self.into_mode

/-- LP50xx::into_monochromatic_mode (lib.rs lines 186-188). -/
def LP50xx.into_monochromatic_mode {MODE I2C EN : Type}
    (self : LP50xx MODE I2C EN) : LP50xx MonochromaticMode I2C EN :=
  self.into_mode

/-- LP50xx::write (lib.rs lines 209-226). The blocking interface has
priority; it calls Address.into_u8 (which can panic) and then the bus
write, whose failure becomes Error.CommError; a failed bus write leaves
the driver state unchanged in this model. Otherwise the callback is
invoked (modelled by recording the frame), and if neither is present
the call fails with Error.NoInterfaceDefined. -/
def LP50xx.write {MODE I2C EN : Type}
    (i2c_write : I2C → Nat → List Nat → Option I2C)
    (self : LP50xx MODE I2C EN) (addr : Address) (data : List Nat) :
    WriteResult (LP50xx MODE I2C EN) :=
  match self.interface with
  | some i2c =>
    match addr.into_u8 with
    | none => WriteResult.panic
    | some a =>
      match i2c_write i2c a data with
      | none => WriteResult.err Error.CommError self []
      | some i2c2 => WriteResult.ok { self with interface := some i2c2 } [(addr, data)]
  | none =>
    match self.transfer_callback with
    | some _cb => WriteResult.ok self [(addr, data)]
    | none => WriteResult.err Error.NoInterfaceDefined self []

/-- LP50xx::configure (lib.rs lines 265-283). -/
def LP50xx.configure {MODE I2C EN : Type}
    (i2c_write : I2C → Nat → List Nat → Option I2C)
    (self : LP50xx MODE I2C EN) (log_scale power_save auto_incr pwm_dithering
      max_current_option global_off : Bool) : WriteResult (LP50xx MODE I2C EN) :=
  let value : Nat := 0x00
    ||| (cond log_scale 1 0) <<< 5
    ||| (cond power_save 1 0) <<< 4
    ||| (cond auto_incr 1 0) <<< 3
    ||| (cond pwm_dithering 1 0) <<< 2
    ||| (cond max_current_option 1 0) <<< 1
    ||| (cond global_off 1 0) <<< 0
  self.write i2c_write Address.Broadcast [0x01, value]

/-- LP50xx<ColorMode>::set (lib.rs lines 294-310). The source panics
when channel < 1, then performs two writes in order, stopping at the
first failure. u8 additions that can overflow carry an explicit
% 256. -/
def LP50xx.color_set {I2C EN : Type}
    (i2c_write : I2C → Nat → List Nat → Option I2C)
    (self : LP50xx ColorMode I2C EN) (channel : Nat)
    (brightness r g b : Nat) : WriteResult (LP50xx ColorMode I2C EN) :=
  if channel < 1 then
    WriteResult.panic
  else
    let ch := channel - 1
    let bright_addr := (0x07 + ch) % 256
    let color_addr := (0x0b + ch * 3) % 256
    match self.write i2c_write self.active_address [bright_addr, brightness] with
    | WriteResult.panic => WriteResult.panic
    | WriteResult.err e s t => WriteResult.err e s t
    | WriteResult.ok s t =>
      match s.write i2c_write s.active_address [color_addr, r, g, b] with
      | WriteResult.panic => WriteResult.panic
      | WriteResult.err e s2 t2 => WriteResult.err e s2 (t ++ t2)
      | WriteResult.ok s2 t2 => WriteResult.ok s2 (t ++ t2)

/-- LP50xx<MonochromaticMode>::set_brightness_factor
(lib.rs lines 323-330): clamp the factor into the interval from 0.01
to 1.0 and store it. -/
def LP50xx.set_brightness_factor {I2C EN : Type}
    (self : LP50xx MonochromaticMode I2C EN) (factor : ℚ) :
    LP50xx MonochromaticMode I2C EN :=
  let f := if factor < 0.01 then 0.01 else if factor > 1.0 then 1.0 else factor
  { self with brightness_factor := f }

/-- get_led_address_offset (lib.rs lines 370-381). -/
def get_led_address_offset (led_index : Nat) (model : Model) : Nat :=
  let length := model.get_pin_count
  if led_index ≤ length then
    0x00
  else if led_index > length ∧ led_index ≤ length * 2 then
    0x01
  else
    0x02

/-- LP50xx<MonochromaticMode>::set (lib.rs lines 340-364). Panics when
led = 0, or when continuous addressing is off and led exceeds the pin
count. The emitted byte is the f32 product of value and the brightness
factor cast to u8. -/
def LP50xx.mono_set {I2C EN : Type}
    (i2c_write : I2C → Nat → List Nat → Option I2C)
    (self : LP50xx MonochromaticMode I2C EN) (led value : Nat) :
    WriteResult (LP50xx MonochromaticMode I2C EN) :=
  if led = 0 then
    WriteResult.panic
  else if self.continuous_addressing = false ∧ led > self.model.get_pin_count then
    WriteResult.panic
  else
    let led_base_address := 0x0B
    let ap :=
      if self.continuous_addressing then
        let addr_offset := get_led_address_offset led self.model
        (Address.Independent addr_offset,
          led - addr_offset * self.model.get_pin_count)
      else
        (self.active_address, led)
    let result := f32_as_u8 ((value : ℚ) * self.brightness_factor)
    self.write i2c_write ap.1 [(led_base_address + (ap.2 - 1)) % 256, result]

/-- Reduction of LP50xx.write when no blocking interface is present and
a transfer callback is configured: the frame is handed to the callback
and the call succeeds with the state unchanged. -/
theorem write_callback_eq {MODE I2C EN : Type}
    (i2cw : I2C → Nat → List Nat → Option I2C) (s : LP50xx MODE I2C EN)
    (cb : Address → List Nat → Unit) (hintf : s.interface = none)
    (hcb : s.transfer_callback = some cb) (addr : Address) (data : List Nat) :
    s.write i2cw addr data = WriteResult.ok s [(addr, data)] := by
  unfold LP50xx.write
  rw [hintf, hcb]

/-- Reduction of LP50xx.write when neither interface is present. -/
theorem write_no_interface_eq {MODE I2C EN : Type}
    (i2cw : I2C → Nat → List Nat → Option I2C) (s : LP50xx MODE I2C EN)
    (hintf : s.interface = none) (hcb : s.transfer_callback = none)
    (addr : Address) (data : List Nat) :
    s.write i2cw addr data = WriteResult.err Error.NoInterfaceDefined s [] := by
  unfold LP50xx.write
  rw [hintf, hcb]

/-- Reduction of the monochromatic set on the continuous-addressing,
callback-transport path. -/
theorem mono_set_continuous_callback {I2C EN : Type}
    (i2cw : I2C → Nat → List Nat → Option I2C)
    (s : LP50xx MonochromaticMode I2C EN) (cb : Address → List Nat → Unit)
    (led value : Nat) (hled : led ≠ 0)
    (hcont : s.continuous_addressing = true)
    (hintf : s.interface = none) (hcb : s.transfer_callback = some cb) :
    s.mono_set i2cw led value =
      WriteResult.ok s
        [(Address.Independent (get_led_address_offset led s.model),
          [(0x0B + (led - get_led_address_offset led s.model *
              s.model.get_pin_count - 1)) % 256,
           f32_as_u8 ((value : ℚ) * s.brightness_factor)])] := by
  unfold LP50xx.mono_set
  rw [hcont, if_neg hled, if_neg (by simp), if_pos rfl]
  exact write_callback_eq i2cw s cb hintf hcb _ _

/-- Characterization of the led address offset by the three index
ranges. -/
theorem get_led_address_offset_spec (led : Nat) (m : Model) :
    (led ≤ m.get_pin_count → get_led_address_offset led m = 0) ∧
    (m.get_pin_count < led → led ≤ 2 * m.get_pin_count →
      get_led_address_offset led m = 1) ∧
    (2 * m.get_pin_count < led → get_led_address_offset led m = 2) := by
  refine ⟨fun h => ?_, fun h1 h2 => ?_, fun h => ?_⟩ <;>
    simp only [get_led_address_offset] <;> split_ifs <;> omega

/-- The register byte computed by the monochromatic continuous path
stays below 256 for any u8 led index, so the % 256 in the embedding
never wraps. -/
theorem led_register_lt_256 (led : Nat) (m : Model) (h255 : led ≤ 255) :
    0x0B + (led - get_led_address_offset led m * m.get_pin_count - 1) < 256 := by
  cases m <;>
    simp only [get_led_address_offset, Model.get_pin_count] <;>
    split_ifs <;> omega

/-- Port of the Rust unit test correct_led_address_offset
(lib.rs lines 385-397). -/
theorem correct_led_address_offset :
    get_led_address_offset 1 Model.LP5012 = 0x00 ∧
    get_led_address_offset 12 Model.LP5012 = 0x00 ∧
    get_led_address_offset 13 Model.LP5012 = 0x01 ∧
    get_led_address_offset 24 Model.LP5012 = 0x01 ∧
    get_led_address_offset 25 Model.LP5012 = 0x02 := by
  decide

/-- Claim C1: for every selector s in {0,1,2,3}, Address.into_u8 of
Independent s equals the fixed base pattern 0b00010100 OR-ed with s;
Address.into_u8 of Broadcast is the fixed constant 0b0001100, distinct
from all four Independent encodings; and for every selector s > 3 the
encoding panics (modelled by none) instead of clamping or wrapping. -/
theorem c1_address_into_u8 :
    (∀ s : Nat, s ≤ 3 →
      Address.into_u8 (Address.Independent s) = some (0b00010100 ||| s)) ∧
    Address.into_u8 Address.Broadcast = some 0b0001100 ∧
    (∀ s : Nat, s ≤ 3 →
      Address.into_u8 (Address.Independent s) ≠ Address.into_u8 Address.Broadcast) ∧
    (∀ s : Nat, 3 < s → Address.into_u8 (Address.Independent s) = none) := by
  refine ⟨fun s hs => ?_, rfl, fun s hs => ?_, fun s hs => ?_⟩
  · simp only [Address.into_u8]
    rw [if_neg (by omega)]
  · interval_cases s <;> decide
  · simp only [Address.into_u8]
    rw [if_pos hs]

/-- Witness for C1 at selectors 2 and 7. -/
theorem c1_address_into_u8_witness :
    Address.into_u8 (Address.Independent 2) = some 22 ∧
    Address.into_u8 (Address.Independent 2) ≠ Address.into_u8 Address.Broadcast ∧
    Address.into_u8 (Address.Independent 7) = none := by
  refine ⟨?_, c1_address_into_u8.2.2.1 2 (by decide),
    c1_address_into_u8.2.2.2 7 (by decide)⟩
  rw [c1_address_into_u8.1 2 (by decide)]
  decide

/-- Claim C2: for every 1-based led index (in the u8 range) and device
model, the continuous-addressing resolution yields chip offset 0 when
the index is at most the pin count n, offset 1 when n < index ≤ 2n,
and offset 2 when index > 2n; the intra-chip pin offset is
index - offset * n; and the monochromatic set with continuous
addressing enabled emits one frame to Address.Independent offset whose
register byte is 0x0B + (pin_offset - 1). -/
theorem c2_continuous_resolution {I2C EN : Type}
    (i2cw : I2C → Nat → List Nat → Option I2C)
    (s : LP50xx MonochromaticMode I2C EN) (cb : Address → List Nat → Unit)
    (led value : Nat) (h1 : 1 ≤ led) (h255 : led ≤ 255)
    (hcont : s.continuous_addressing = true)
    (hintf : s.interface = none) (hcb : s.transfer_callback = some cb) :
    (led ≤ s.model.get_pin_count → get_led_address_offset led s.model = 0) ∧
    (s.model.get_pin_count < led ∧ led ≤ 2 * s.model.get_pin_count →
      get_led_address_offset led s.model = 1) ∧
    (2 * s.model.get_pin_count < led → get_led_address_offset led s.model = 2) ∧
    (0x0B + (led - get_led_address_offset led s.model *
        s.model.get_pin_count - 1)) % 256 =
      0x0B + (led - get_led_address_offset led s.model *
        s.model.get_pin_count - 1) ∧
    s.mono_set i2cw led value =
      WriteResult.ok s
        [(Address.Independent (get_led_address_offset led s.model),
          [0x0B + (led - get_led_address_offset led s.model *
              s.model.get_pin_count - 1),
           f32_as_u8 ((value : ℚ) * s.brightness_factor)])] := by
  have hspec := get_led_address_offset_spec led s.model
  have hlt := led_register_lt_256 led s.model h255
  refine ⟨hspec.1, fun h => hspec.2.1 h.1 h.2, hspec.2.2, Nat.mod_eq_of_lt hlt, ?_⟩
  rw [mono_set_continuous_callback i2cw s cb led value (by omega) hcont hintf hcb,
    Nat.mod_eq_of_lt hlt]

/-- Witness for C2 on the 12-pin model at led 13: offset 1, pin offset
1, register 0x0B on chip Independent 1. -/
theorem c2_continuous_resolution_witness :
    LP50xx.mono_set (fun (_ : Unit) (_ : Nat) (_ : List Nat) => none)
      (⟨none, (), some (fun _ _ => ()), true, Address.Broadcast,
        Model.LP5012, 1⟩ : LP50xx MonochromaticMode Unit Unit) 13 200 =
      WriteResult.ok
        (⟨none, (), some (fun _ _ => ()), true, Address.Broadcast,
          Model.LP5012, 1⟩ : LP50xx MonochromaticMode Unit Unit)
        [(Address.Independent 1, [0x0B, 200])] ∧
    get_led_address_offset 13 Model.LP5012 = 1 := by
  have h := c2_continuous_resolution (fun (_ : Unit) (_ : Nat) (_ : List Nat) => none)
    (⟨none, (), some (fun _ _ => ()), true, Address.Broadcast,
      Model.LP5012, 1⟩ : LP50xx MonochromaticMode Unit Unit)
    (fun _ _ => ()) 13 200 (by decide) (by decide) rfl rfl rfl
  refine ⟨?_, h.2.1 (by decide)⟩
  rw [h.2.2.2.2]
  norm_num [get_led_address_offset, Model.get_pin_count, f32_as_u8]
  decide

/-- Below 255 the saturating cast is plain truncation toward zero. -/
theorem f32_as_u8_eq_floor (x : ℚ) (hx : x ≤ 255) :
    f32_as_u8 x = Int.toNat (Int.floor x) := by
  have h1 : Int.floor x ≤ 255 := by
    have h := Int.floor_mono hx
    simpa using h
  have h2 : Int.toNat (Int.floor x) ≤ 255 := by omega
  unfold f32_as_u8
  exact min_eq_right h2

/-- Claim C3 counterexample: the code truncates rather than rounds.
With brightness scale 3/10 (stored unchanged by set_brightness_factor)
and value 9, the monochromatic set writes byte 2 (the truncation of
2.7), while rounding 9 * (3/10) = 2.7 yields 3. -/
theorem c3_round_counterexample :
    (((⟨none, (), some (fun _ _ => ()), true, Address.Broadcast,
          Model.LP5012, 1⟩ :
        LP50xx MonochromaticMode Unit Unit).set_brightness_factor
          (3/10)).mono_set (fun (_ : Unit) (_ : Nat) (_ : List Nat) => none)
        1 9 =
      WriteResult.ok
        (⟨none, (), some (fun _ _ => ()), true, Address.Broadcast,
          Model.LP5012, 3/10⟩ : LP50xx MonochromaticMode Unit Unit)
        [(Address.Independent 0, [0x0B, 2])]) ∧
    (2 : ℤ) ≠ round ((9 : ℚ) * (3/10)) := by
  constructor
  · have hsb : (⟨none, (), some (fun _ _ => ()), true, Address.Broadcast,
          Model.LP5012, 1⟩ :
        LP50xx MonochromaticMode Unit Unit).set_brightness_factor (3/10) =
        (⟨none, (), some (fun _ _ => ()), true, Address.Broadcast,
          Model.LP5012, 3/10⟩ : LP50xx MonochromaticMode Unit Unit) := by
      unfold LP50xx.set_brightness_factor
      norm_num
    rw [hsb,
      mono_set_continuous_callback _ _ (fun _ _ => ()) 1 9 (by decide) rfl rfl rfl]
    norm_num [get_led_address_offset, Model.get_pin_count, f32_as_u8]
    decide
  · norm_num [round_eq]

/-- Claim C3 (amended): in monochromatic mode the byte written equals
value times the brightness scale truncated toward zero (the Rust f32
to u8 cast), not rounded; for value 200 and scale 1/2 this is still
100, as the witness shows. Stated on the continuous-addressing
callback path, for a stored scale at most 1 and a u8 value, where
the saturating cast is exactly the floor. -/
theorem c3_truncated_scaling {I2C EN : Type}
    (i2cw : I2C → Nat → List Nat → Option I2C)
    (s : LP50xx MonochromaticMode I2C EN) (cb : Address → List Nat → Unit)
    (led value : Nat) (h1 : 1 ≤ led) (h255 : led ≤ 255) (hv : value ≤ 255)
    (hcont : s.continuous_addressing = true)
    (hintf : s.interface = none) (hcb : s.transfer_callback = some cb)
    (hbf1 : s.brightness_factor ≤ 1) :
    s.mono_set i2cw led value =
      WriteResult.ok s
        [(Address.Independent (get_led_address_offset led s.model),
          [0x0B + (led - get_led_address_offset led s.model *
              s.model.get_pin_count - 1),
           Int.toNat (Int.floor ((value : ℚ) * s.brightness_factor))])] := by
  have hprod : (value : ℚ) * s.brightness_factor ≤ 255 := by
    calc (value : ℚ) * s.brightness_factor ≤ (value : ℚ) * 1 := by
          exact mul_le_mul_of_nonneg_left hbf1 (by positivity)
      _ = (value : ℚ) := mul_one _
      _ ≤ 255 := by exact_mod_cast hv
  rw [mono_set_continuous_callback i2cw s cb led value (by omega) hcont hintf hcb,
    Nat.mod_eq_of_lt (led_register_lt_256 led s.model h255),
    f32_as_u8_eq_floor _ hprod]

/-- Witness for the amended C3: value 200 at scale 1/2 writes byte
100. -/
theorem c3_truncated_scaling_witness :
    LP50xx.mono_set (fun (_ : Unit) (_ : Nat) (_ : List Nat) => none)
      (⟨none, (), some (fun _ _ => ()), true, Address.Broadcast,
        Model.LP5012, 1/2⟩ : LP50xx MonochromaticMode Unit Unit) 1 200 =
      WriteResult.ok
        (⟨none, (), some (fun _ _ => ()), true, Address.Broadcast,
          Model.LP5012, 1/2⟩ : LP50xx MonochromaticMode Unit Unit)
        [(Address.Independent 0, [0x0B, 100])] := by
  have h := c3_truncated_scaling (fun (_ : Unit) (_ : Nat) (_ : List Nat) => none)
    (⟨none, (), some (fun _ _ => ()), true, Address.Broadcast,
      Model.LP5012, 1/2⟩ : LP50xx MonochromaticMode Unit Unit)
    (fun _ _ => ()) 1 200 (by decide) (by decide) (by decide) rfl rfl rfl
    (by norm_num)
  rw [h]
  norm_num [get_led_address_offset, Model.get_pin_count]
  decide

/-- Claim C4: in color mode, for every channel at least 1 (in the u8
range) with internal index i = channel - 1, set emits exactly two
frames in order to the active address: first the brightness frame with
register 0x07 + i, then the RGB frame with register 0x0B + 3i (u8
additions carry the % 256 of the embedding); for channel 1 the two
registers are 0x07 and 0x0B, for channel 3 they are 0x09 and 0x11. -/
theorem c4_color_set_frames {I2C EN : Type}
    (i2cw : I2C → Nat → List Nat → Option I2C)
    (s : LP50xx ColorMode I2C EN) (cb : Address → List Nat → Unit)
    (channel brightness r g b : Nat) (h1 : 1 ≤ channel) (h255 : channel ≤ 255)
    (hintf : s.interface = none) (hcb : s.transfer_callback = some cb) :
    s.color_set i2cw channel brightness r g b =
      WriteResult.ok s
        [(s.active_address, [(0x07 + (channel - 1)) % 256, brightness]),
         (s.active_address, [(0x0b + (channel - 1) * 3) % 256, r, g, b])] ∧
    (0x07 + (1 - 1)) % 256 = 0x07 ∧ (0x0b + (1 - 1) * 3) % 256 = 0x0b ∧
    (0x07 + (3 - 1)) % 256 = 0x09 ∧ (0x0b + (3 - 1) * 3) % 256 = 0x11 := by
  refine ⟨?_, by decide, by decide, by decide, by decide⟩
  unfold LP50xx.color_set
  rw [if_neg (by omega)]
  simp only [write_callback_eq i2cw s cb hintf hcb, List.singleton_append]

/-- Witness for C4 at channel 3: the two frames carry registers 0x09
and 0x11 and go to the active address. -/
theorem c4_color_set_frames_witness :
    LP50xx.color_set (fun (_ : Unit) (_ : Nat) (_ : List Nat) => none)
      (⟨none, (), some (fun _ _ => ()), true, Address.Broadcast,
        Model.LP5012, 1⟩ : LP50xx ColorMode Unit Unit) 3 128 10 20 30 =
      WriteResult.ok
        (⟨none, (), some (fun _ _ => ()), true, Address.Broadcast,
          Model.LP5012, 1⟩ : LP50xx ColorMode Unit Unit)
        [(Address.Broadcast, [0x09, 128]),
         (Address.Broadcast, [0x11, 10, 20, 30])] := by
  have h := c4_color_set_frames (fun (_ : Unit) (_ : Nat) (_ : List Nat) => none)
    (⟨none, (), some (fun _ _ => ()), true, Address.Broadcast,
      Model.LP5012, 1⟩ : LP50xx ColorMode Unit Unit)
    (fun _ _ => ()) 3 128 10 20 30 (by decide) (by decide) rfl rfl
  rw [h.1]

/-- Claim C5: on a handle with neither a blocking interface nor a
transfer callback, every channel-set call (color or monochromatic, at
indices that pass the panic checks) returns Error.NoInterfaceDefined,
emits no frame, and leaves the driver state unchanged (the error
carries the unmodified state and an empty frame list). -/
theorem c5_no_interface {I2C EN : Type}
    (i2cw : I2C → Nat → List Nat → Option I2C)
    (sc : LP50xx ColorMode I2C EN) (sm : LP50xx MonochromaticMode I2C EN)
    (channel brightness r g b led value : Nat)
    (hc1 : 1 ≤ channel) (hl1 : 1 ≤ led)
    (hcif : sc.interface = none) (hccb : sc.transfer_callback = none)
    (hmif : sm.interface = none) (hmcb : sm.transfer_callback = none)
    (hbound : sm.continuous_addressing = true ∨ led ≤ sm.model.get_pin_count) :
    sc.color_set i2cw channel brightness r g b =
      WriteResult.err Error.NoInterfaceDefined sc [] ∧
    sm.mono_set i2cw led value =
      WriteResult.err Error.NoInterfaceDefined sm [] := by
  constructor
  · unfold LP50xx.color_set
    rw [if_neg (by omega)]
    simp only [write_no_interface_eq i2cw sc hcif hccb]
  · unfold LP50xx.mono_set
    cases hcontv : sm.continuous_addressing
    · have hle : led ≤ sm.model.get_pin_count := by
        rcases hbound with hb | hb
        · rw [hcontv] at hb
          exact absurd hb (by simp)
        · exact hb
      rw [if_neg (by omega),
        if_neg (fun hx => absurd hx.2 (by omega)), if_neg (by simp)]
      exact write_no_interface_eq i2cw sm hmif hmcb _ _
    · rw [if_neg (by omega), if_neg (by simp), if_pos rfl]
      exact write_no_interface_eq i2cw sm hmif hmcb _ _

/-- Witness for C5 on concrete unconfigured handles. -/
theorem c5_no_interface_witness :
    LP50xx.color_set (fun (_ : Unit) (_ : Nat) (_ : List Nat) => none)
      (⟨none, (), none, true, Address.Broadcast, Model.LP5012, 1⟩ :
        LP50xx ColorMode Unit Unit) 1 128 10 20 30 =
      WriteResult.err Error.NoInterfaceDefined
        (⟨none, (), none, true, Address.Broadcast, Model.LP5012, 1⟩ :
          LP50xx ColorMode Unit Unit) [] ∧
    LP50xx.mono_set (fun (_ : Unit) (_ : Nat) (_ : List Nat) => none)
      (⟨none, (), none, true, Address.Broadcast, Model.LP5012, 1⟩ :
        LP50xx MonochromaticMode Unit Unit) 1 100 =
      WriteResult.err Error.NoInterfaceDefined
        (⟨none, (), none, true, Address.Broadcast, Model.LP5012, 1⟩ :
          LP50xx MonochromaticMode Unit Unit) [] :=
  c5_no_interface (fun (_ : Unit) (_ : Nat) (_ : List Nat) => none)
    (⟨none, (), none, true, Address.Broadcast, Model.LP5012, 1⟩ :
      LP50xx ColorMode Unit Unit)
    (⟨none, (), none, true, Address.Broadcast, Model.LP5012, 1⟩ :
      LP50xx MonochromaticMode Unit Unit)
    1 128 10 20 30 1 100 (by decide) (by decide) rfl rfl rfl rfl (Or.inl rfl)

/-- Claim C6: both mode transitions preserve the continuous-addressing
flag, the active chip address, the interface and callback binding, the
enable line, and the model, and reset the brightness factor to 1. -/
theorem c6_into_mode_preserves {MODE I2C EN : Type} (s : LP50xx MODE I2C EN) :
    (s.into_color_mode.interface = s.interface ∧
     s.into_color_mode.enable = s.enable ∧
     s.into_color_mode.transfer_callback = s.transfer_callback ∧
     s.into_color_mode.continuous_addressing = s.continuous_addressing ∧
     s.into_color_mode.active_address = s.active_address ∧
     s.into_color_mode.model = s.model ∧
     s.into_color_mode.brightness_factor = 1) ∧
    (s.into_monochromatic_mode.interface = s.interface ∧
     s.into_monochromatic_mode.enable = s.enable ∧
     s.into_monochromatic_mode.transfer_callback = s.transfer_callback ∧
     s.into_monochromatic_mode.continuous_addressing = s.continuous_addressing ∧
     s.into_monochromatic_mode.active_address = s.active_address ∧
     s.into_monochromatic_mode.model = s.model ∧
     s.into_monochromatic_mode.brightness_factor = 1) :=
  ⟨⟨rfl, rfl, rfl, rfl, rfl, rfl, rfl⟩, ⟨rfl, rfl, rfl, rfl, rfl, rfl, rfl⟩⟩

/-- Claim C7: color set at channel 0 and monochromatic set at led 0 are
rejected by a panic (a constructor distinct from every recoverable
error result) before any write: the panic result carries no frame. -/
theorem c7_zero_index_panic {I2C EN : Type}
    (i2cw : I2C → Nat → List Nat → Option I2C)
    (sc : LP50xx ColorMode I2C EN) (sm : LP50xx MonochromaticMode I2C EN)
    (brightness r g b value : Nat) :
    sc.color_set i2cw 0 brightness r g b = WriteResult.panic ∧
    sm.mono_set i2cw 0 value = WriteResult.panic ∧
    (∀ (e : Error) (s2 : LP50xx ColorMode I2C EN) (t : List Frame),
      (WriteResult.panic : WriteResult (LP50xx ColorMode I2C EN)) ≠
        WriteResult.err e s2 t) := by
  refine ⟨?_, ?_, fun e s2 t h => nomatch h⟩
  · unfold LP50xx.color_set
    rw [if_pos (by omega)]
  · unfold LP50xx.mono_set
    rw [if_pos rfl]

/-- Claim C8: set_brightness_factor clamps its input into the interval
from 0.01 to 1 before storing it, changing no other field (0 stores
0.01, 5 stores 1, 0.5 stores 0.5); the getter is the pure structure
projection brightness_factor. -/
theorem c8_brightness_clamp {I2C EN : Type}
    (s : LP50xx MonochromaticMode I2C EN) (f : ℚ) :
    s.set_brightness_factor f =
      { s with brightness_factor :=
          if f < 0.01 then 0.01 else if f > 1.0 then 1.0 else f } ∧
    (s.set_brightness_factor 0).brightness_factor = 0.01 ∧
    (s.set_brightness_factor 5).brightness_factor = 1 ∧
    (s.set_brightness_factor 0.5).brightness_factor = 0.5 ∧
    0.01 ≤ (s.set_brightness_factor f).brightness_factor ∧
    (s.set_brightness_factor f).brightness_factor ≤ 1 := by
  refine ⟨rfl, ?_, ?_, ?_, ?_, ?_⟩ <;>
    simp only [LP50xx.set_brightness_factor] <;>
    split_ifs <;> norm_num <;> linarith

/-- Claim C9: with continuous addressing enabled the monochromatic set
enforces no upper bound on the led index: for every led from 1 to 255
the call succeeds (the pin-count bound is checked only when continuous
addressing is disabled, where exceeding it panics), and every
led > 2n resolves to chip offset 2 with register 0x0B + (led - 2n - 1);
at led 255 on the 12-pin model that register is 241, beyond the 0x17
maximum register the driver itself ever addresses. -/
theorem c9_continuous_unbounded {I2C EN : Type}
    (i2cw : I2C → Nat → List Nat → Option I2C)
    (s : LP50xx MonochromaticMode I2C EN) (cb : Address → List Nat → Unit)
    (led value : Nat) (h1 : 1 ≤ led) (h255 : led ≤ 255)
    (hintf : s.interface = none) (hcb : s.transfer_callback = some cb) :
    (s.continuous_addressing = true →
      s.mono_set i2cw led value =
        WriteResult.ok s
          [(Address.Independent (get_led_address_offset led s.model),
            [0x0B + (led - get_led_address_offset led s.model *
                s.model.get_pin_count - 1),
             f32_as_u8 ((value : ℚ) * s.brightness_factor)])]) ∧
    (2 * s.model.get_pin_count < led →
      get_led_address_offset led s.model = 2 ∧
      0x0B + (led - get_led_address_offset led s.model *
          s.model.get_pin_count - 1) =
        0x0B + (led - 2 * s.model.get_pin_count - 1)) ∧
    (s.continuous_addressing = false → s.model.get_pin_count < led →
      s.mono_set i2cw led value = WriteResult.panic) ∧
    (0x0B + (255 - 2 * 12 - 1) = 241 ∧ 0x17 < 241) := by
  refine ⟨fun hcont => ?_, fun hgt => ?_, fun hcontf hgt => ?_, by decide, by decide⟩
  · rw [mono_set_continuous_callback i2cw s cb led value (by omega) hcont hintf hcb,
      Nat.mod_eq_of_lt (led_register_lt_256 led s.model h255)]
  · have hoff := (get_led_address_offset_spec led s.model).2.2 hgt
    rw [hoff]
    exact ⟨rfl, rfl⟩
  · unfold LP50xx.mono_set
    rw [hcontf, if_neg (by omega), if_pos ⟨rfl, hgt⟩]

/-- Witness for C9 at the extreme led index 255 on the 12-pin model:
no panic, chip offset 2, register byte 241. -/
theorem c9_continuous_unbounded_witness :
    LP50xx.mono_set (fun (_ : Unit) (_ : Nat) (_ : List Nat) => none)
      (⟨none, (), some (fun _ _ => ()), true, Address.Broadcast,
        Model.LP5012, 1⟩ : LP50xx MonochromaticMode Unit Unit) 255 255 =
      WriteResult.ok
        (⟨none, (), some (fun _ _ => ()), true, Address.Broadcast,
          Model.LP5012, 1⟩ : LP50xx MonochromaticMode Unit Unit)
        [(Address.Independent 2, [241, 255])] := by
  have h := c9_continuous_unbounded (fun (_ : Unit) (_ : Nat) (_ : List Nat) => none)
    (⟨none, (), some (fun _ _ => ()), true, Address.Broadcast,
      Model.LP5012, 1⟩ : LP50xx MonochromaticMode Unit Unit)
    (fun _ _ => ()) 255 255 (by decide) (by decide) rfl rfl
  rw [h.1 rfl]
  norm_num [get_led_address_offset, Model.get_pin_count, f32_as_u8]

/-- Claim C10: both constructors establish the same initial state:
continuous addressing enabled, active address Broadcast, brightness
factor 1, the stored model, and the enable pin with the set-low
transition applied (the source drives the line low and discards a
possible pin error); exactly one of the blocking interface and the
transfer callback is present. -/
theorem c10_init_state {I2C EN : Type} (en_set_low : EN → EN × Bool)
    (model : Model) (i2c : I2C) (en : EN)
    (callback : Address → List Nat → Unit) :
    (LP50xx.init_with_i2c en_set_low model i2c en).interface = some i2c ∧
    (LP50xx.init_with_i2c en_set_low model i2c en).transfer_callback = none ∧
    (LP50xx.init_with_i2c en_set_low model i2c en).continuous_addressing = true ∧
    (LP50xx.init_with_i2c en_set_low model i2c en).active_address =
      Address.Broadcast ∧
    (LP50xx.init_with_i2c en_set_low model i2c en).brightness_factor = 1 ∧
    (LP50xx.init_with_i2c en_set_low model i2c en).model = model ∧
    (LP50xx.init_with_i2c en_set_low model i2c en).enable = (en_set_low en).1 ∧
    (LP50xx.init_with_callback en_set_low model en callback :
      LP50xx DefaultMode I2C EN).interface = none ∧
    (LP50xx.init_with_callback en_set_low model en callback :
      LP50xx DefaultMode I2C EN).transfer_callback = some callback ∧
    (LP50xx.init_with_callback en_set_low model en callback :
      LP50xx DefaultMode I2C EN).continuous_addressing = true ∧
    (LP50xx.init_with_callback en_set_low model en callback :
      LP50xx DefaultMode I2C EN).active_address = Address.Broadcast ∧
    (LP50xx.init_with_callback en_set_low model en callback :
      LP50xx DefaultMode I2C EN).brightness_factor = 1 ∧
    (LP50xx.init_with_callback en_set_low model en callback :
      LP50xx DefaultMode I2C EN).model = model ∧
    (LP50xx.init_with_callback en_set_low model en callback :
      LP50xx DefaultMode I2C EN).enable = (en_set_low en).1 :=
  ⟨rfl, rfl, rfl, rfl, rfl, rfl, rfl, rfl, rfl, rfl, rfl, rfl, rfl, rfl⟩

end Lp50xx
